import Mathlib

/-!
Shallow embedding of the guild-configuration settings-menu UI of
`src/lightning/cogs/config/ui.py` (the `AutoRole` and `Prefix` menus and the
`PrefixModal`), together with the per-session lock and the backing-store read
that the spec describes for parts of the program outside the given sources.

Conventions of the embedding:
* asynchronous handlers become pure functions of their inputs (the current
  backing data, the sub-flow resolution, whether the backing write succeeds)
  returning an explicit outcome value;
* a Python exception escaping a handler is an explicit error constructor in
  the outcome;
* Python `list.append` is `· ++ [·]`, Python `list.remove` removes the first
  occurrence and raises `ValueError` when the value is absent.
-/

namespace LightningConfig

/-- Errors surfaced by the sanctum REST API client: `NotFound` on reads with no
stored record, or a generic storage failure on other calls. -/
inductive ApiError
  | notFound
  | storageFailure
deriving DecidableEq, Repr

/-- The per-guild bot-config record as this UI reads it: only the field the
`AutoRole` menu touches, `autorole_id` (absent means never configured). -/
structure BotConfig where
  autorole_id : Option Nat
deriving DecidableEq, Repr

/-- Embeds `Prefix.get_prefixes` (ui.py lines 95-99): request the guild's
stored prefixes; a `NotFound` from the API is caught and turned into the empty
list, every other outcome passes through. -/
def get_prefixes (backing : Except ApiError (List String)) :
    Except ApiError (List String) :=
  match backing with
  | .error .notFound => .ok []
  | r => r

/-- Modelled from the spec: `ctx.bot.get_guild_bot_config` (the ConfigStore
read; its implementation is outside the given sources, only its call sites are
in ui.py). Per spec section 4.1, it never fails with not-found for a guild with
no prior configuration: a backing `NotFound` is recovered into a record with
all optional fields unset. -/
def get_guild_bot_config (backing : Except ApiError BotConfig) :
    Except ApiError BotConfig :=
  match backing with
  | .error .notFound => .ok ⟨none⟩
  | r => r

/-- The description shown by the `AutoRole` menu embed: one constructor per
branch of `AutoRole.format_initial_message` (ui.py lines 35-48). -/
inductive AutoRoleDesc
  | healthy (rid : Nat)
  | unset
  | broken
deriving DecidableEq, Repr

/-- The render output of the `AutoRole` menu: the add button's label, whether
the remove button is disabled, and the embed description. -/
structure AutoRoleView where
  addLabel : String
  removeDisabled : Bool
  desc : AutoRoleDesc
deriving DecidableEq, Repr

/-- Embeds the resolution of `record.autorole`: the stored `autorole_id`
looked up among the guild's live roles; `none` when unconfigured or when the
stored id no longer resolves to a live role. -/
def resolveAutorole (roles : List Nat) (c : BotConfig) : Option Nat :=
  match c.autorole_id with
  | none => none
  | some i => if i ∈ roles then some i else none

/-- Embeds `AutoRole.format_initial_message` (ui.py lines 31-50):
`if record.autorole` (the id resolves to a live role) / `elif record.autorole_id
is None` (never configured) / `else` (configured but the role is gone). -/
def format_initial_message (roles : List Nat) (c : BotConfig) : AutoRoleView :=
  match resolveAutorole roles c with
  | some rid => ⟨"Change autorole", false, .healthy rid⟩
  | none =>
    match c.autorole_id with
    | none => ⟨"Add an autorole", true, .unset⟩
    | some _ => ⟨"Change autorole", false, .broken⟩

/-- The exception `cog.add_config_key` / `cog.remove_config_key` may raise when
the backing write fails (spec's `StorageError`). -/
inductive StorageFault
  | storageError
deriving DecidableEq, Repr

/-- The state the `AutoRole` handlers act on: the guild's stored autorole field
in backing storage, and whether the `get_guild_bot_config` cache still holds an
entry for the guild (`invalidate` sets it to `false`). -/
structure ConfigState where
  stored_autorole : Option Nat
  cacheValid : Bool
deriving DecidableEq, Repr

/-- Outcome of an `AutoRole` handler: the state it leaves behind and the
exception, if any, that escaped it. -/
structure HandlerOutcome where
  state : ConfigState
  raised : Option StorageFault
deriving DecidableEq, Repr

/-- Embeds `AutoRole.add_autorole_button` (ui.py lines 52-64): prompt for a
role (`role` is the sub-flow resolution, `none` on cancellation); on `none`
return with nothing changed; otherwise `add_config_key` (which raises and
aborts the handler when the backing write fails, leaving the cache entry
untouched) and only then `invalidate`. -/
def add_autorole_button (s : ConfigState) (role : Option Nat) (writeOk : Bool) :
    HandlerOutcome :=
  match role with
  | none => ⟨s, none⟩
  | some rid =>
    if writeOk then ⟨{ stored_autorole := some rid, cacheValid := false }, none⟩
    else ⟨s, some .storageError⟩

/-- Embeds `AutoRole.remove_autorole_button` (ui.py lines 66-71):
`remove_config_key` (raising on a failed backing write, before the invalidate
line is reached) then `invalidate`. -/
def remove_autorole_button (s : ConfigState) (writeOk : Bool) : HandlerOutcome :=
  if writeOk then ⟨{ stored_autorole := none, cacheValid := false }, none⟩
  else ⟨s, some .storageError⟩

/-- Outcome of `Prefix.add_prefix` (the add-prefix button handler). -/
inductive AddPrefixResult
  | tooMany
  | cancelled
  | duplicate
  | upserted (newList : List String)
deriving DecidableEq, Repr

/-- Embeds `Prefix.add_prefix` (ui.py lines 101-121): fetch the prefixes; if
`len(prefixes) > 5` send "You cannot have more than 5 custom prefixes!" and
return; open the modal; if the modal resolved with no value return; if the
value is already registered send a notice and return; otherwise append and
`bulk_upsert_guild_prefixes`. -/
def add_prefix_handler (stored : List String) (modalValue : String) :
    AddPrefixResult :=
  if stored.length > 5 then .tooMany
  else if modalValue = "" then .cancelled
  else if modalValue ∈ stored then .duplicate
  else .upserted (stored ++ [modalValue])

/-- A Python exception escaping `Prefix.remove_prefix`: `list.remove` raises
`ValueError` when the value is absent. -/
inductive PyFault
  | valueError
deriving DecidableEq, Repr

/-- Outcome of `Prefix.remove_prefix` (the remove-prefix button handler). -/
inductive RemovePrefixResult
  | cancelled
  | raised (e : PyFault)
  | upserted (newList : List String)
deriving DecidableEq, Repr

/-- Python `list.remove`: drop the first occurrence, `ValueError` if absent. -/
def list_remove (xs : List String) (v : String) : Except PyFault (List String) :=
  if v ∈ xs then .ok (xs.erase v) else .error .valueError

/-- Embeds `Prefix.remove_prefix` (ui.py lines 123-137): fetch the prefixes,
show a `SelectSubMenu` built from them (`selection` is its resolution, `none`
when `select.values` is empty); on `none` return; otherwise
`prefixes.remove(selection)` then `bulk_upsert_guild_prefixes`. -/
def remove_prefix_handler (stored : List String) (selection : Option String) :
    RemovePrefixResult :=
  match selection with
  | none => .cancelled
  | some v =>
    match list_remove stored v with
    | .ok l => .upserted l
    | .error e => .raised e

/-- Whether an add-prefix outcome reached the `bulk_upsert_guild_prefixes`
call (ui.py line 121). -/
def addWritesStorage : AddPrefixResult → Bool
  | .upserted _ => true
  | _ => false

/-- Whether a remove-prefix outcome reached the `bulk_upsert_guild_prefixes`
call (ui.py line 137). -/
def removeWritesStorage : RemovePrefixResult → Bool
  | .upserted _ => true
  | _ => false

/-- The guild's stored prefix list after an add-prefix outcome: replaced only
when the bulk upsert ran. -/
def storedAfterAdd (stored : List String) : AddPrefixResult → List String
  | .upserted l => l
  | _ => stored

/-- The guild's stored prefix list after a remove-prefix outcome: replaced only
when the bulk upsert ran. -/
def storedAfterRemove (stored : List String) : RemovePrefixResult → List String
  | .upserted l => l
  | _ => stored

/-- The enabled/disabled state of the `Prefix` menu's two buttons. -/
structure PrefixComponents where
  addDisabled : Bool
  removeDisabled : Bool
deriving DecidableEq, Repr

/-- Embeds `Prefix.update_components` (ui.py lines 90-93): the add button is
disabled when `len(config) > 5`, the remove button when `config` is empty. -/
def update_components (config : List String) : PrefixComponents :=
  ⟨config.length > 5, config.isEmpty⟩

/-- The acceptance condition of `PrefixModal`'s text input (ui.py line 75,
`max_length=50, min_length=1`): a submitted value has between 1 and 50
characters. -/
def modalAccepts (s : String) : Prop :=
  1 ≤ s.length ∧ s.length ≤ 50

instance (s : String) : Decidable (modalAccepts s) := by
  unfold modalAccepts; infer_instance

/-- The four mutating controls of the two menus. -/
inductive Control
  | addAutorole
  | removeAutorole
  | addPrefixControl
  | removePrefixControl
deriving DecidableEq, Repr

/-- Which handlers carry the `@lock_when_pressed` decorator in ui.py:
`add_autorole_button` (line 53), `add_prefix` (line 102) and `remove_prefix`
(line 124) do; `remove_autorole_button` (lines 66-67) does not. -/
def lock_when_pressed : Control → Bool
  | .removeAutorole => false
  | _ => true

/-- A menu session's concurrency-relevant state: whether the session's mutex
flag is held, and which handlers are currently in flight (started and not yet
completed). -/
structure MenuSession where
  lockHeld : Bool
  inFlight : List Control
deriving DecidableEq, Repr

/-- Modelled from the spec: the locking mechanism of `lock_when_pressed`
(implemented in `lightning.ui`, outside the given sources) is a per-session
mutual-exclusion flag; a decorated handler's activation is rejected while the
flag is held and otherwise acquires it for the duration of the handler. An
undecorated handler neither checks nor acquires the flag. `press` returns
`none` when the activation is rejected, otherwise the session with the handler
now in flight. -/
def press (s : MenuSession) (c : Control) : Option MenuSession :=
  if lock_when_pressed c then
    if s.lockHeld then none
    else some ⟨true, c :: s.inFlight⟩
  else some ⟨s.lockHeld, c :: s.inFlight⟩

/-- Modelled from the spec: completion of an in-flight handler releases the
session's flag when that handler was decorated with `lock_when_pressed`. -/
def finish (s : MenuSession) (c : Control) : MenuSession :=
  ⟨if lock_when_pressed c then false else s.lockHeld, s.inFlight.erase c⟩

end LightningConfig

namespace LightningConfig

/-- C1: the claim says that when a guild already stores exactly 5 prefixes, a
further add is rejected with a ValidationError and `bulk_upsert_guild_prefixes`
is not called. The handler's guard (ui.py line 105) is `len(prefixes) > 5`, so
at exactly 5 entries it appends a 6th and writes it to storage, contradicting
the handler's own rejection message "You cannot have more than 5 custom
prefixes!". -/
theorem C1_sixth_prefix_accepted :
    add_prefix_handler ["a", "b", "c", "d", "e"] "f"
      = .upserted ["a", "b", "c", "d", "e", "f"] ∧
    addWritesStorage (add_prefix_handler ["a", "b", "c", "d", "e"] "f")
      = true := by
  decide

/-- C2 counterexample: `remove_autorole_button` is not decorated with
`lock_when_pressed`, so on an idle session its activation is accepted without
taking the session flag, and while it is still in flight a second control
activation on the same session is also accepted — the claim's "at most one
mutating action in flight" fails for this handler. -/
theorem C2_unlocked_remove_autorole :
    press ⟨false, []⟩ .removeAutorole = some ⟨false, [.removeAutorole]⟩ ∧
    (press ⟨false, [.removeAutorole]⟩ .addAutorole).isSome = true := by
  decide

/-- C2 amended: for the handlers that do carry `lock_when_pressed`
(add autorole, add prefix, remove prefix), activation on an idle session
succeeds and takes the flag; while that handler is in flight, a second
activation of any decorated control on the same session is rejected; once the
handler completes, activation succeeds again. -/
theorem C2_lock_serializes_decorated_handlers (s : MenuSession) (c c2 : Control)
    (hc : lock_when_pressed c = true) (hc2 : lock_when_pressed c2 = true)
    (hl : s.lockHeld = false) :
    ∃ s2, press s c = some s2 ∧ press s2 c2 = none ∧
      (press (finish s2 c) c2).isSome = true := by
  refine ⟨⟨true, c :: s.inFlight⟩, ?_, ?_, ?_⟩ <;>
    simp [press, finish, hc, hc2, hl]

/-- C2 witness: instantiated with the add-prefix and remove-prefix buttons on
an idle session. -/
theorem C2_lock_witness :
    ∃ s2, press ⟨false, []⟩ .addPrefixControl = some s2 ∧
      press s2 .removePrefixControl = none ∧
      (press (finish s2 .addPrefixControl) .removePrefixControl).isSome
        = true :=
  C2_lock_serializes_decorated_handlers ⟨false, []⟩ .addPrefixControl
    .removePrefixControl rfl rfl rfl

/-- C3 counterexample: when the backing write of the add-autorole handler
fails, the handler raises StorageError before reaching the `invalidate` line
(ui.py line 64), so a valid cache entry stays valid — the claim's "invalidated
whether the backing write succeeds or fails" does not hold. -/
theorem C3_failed_write_keeps_cache_entry :
    (add_autorole_button ⟨none, true⟩ (some 1) false).raised
      = some .storageError ∧
    (add_autorole_button ⟨none, true⟩ (some 1) false).state.cacheValid
      = true := by
  decide

/-- C3 amended: the cached entry for the guild is invalidated after a
successful backing write; when the backing write raises StorageError, the
handler aborts before the invalidate call and the whole state (stored field
and cache entry alike) is left exactly as it was. This holds for both the
add-autorole and the remove-autorole handler. -/
theorem C3_invalidate_only_after_successful_write (s : ConfigState)
    (rid : Nat) :
    (add_autorole_button s (some rid) true).state.cacheValid = false ∧
    add_autorole_button s (some rid) false = ⟨s, some .storageError⟩ ∧
    (remove_autorole_button s true).state.cacheValid = false ∧
    remove_autorole_button s false = ⟨s, some .storageError⟩ := by
  simp [add_autorole_button, remove_autorole_button]

/-- C4 counterexample: driving the remove handler with a value absent from the
stored list makes Python's `list.remove` raise ValueError — the claim's "no
error is raised" fails. -/
theorem C4_absent_removal_raises :
    remove_prefix_handler ["!"] (some "?") = .raised .valueError := by
  decide

/-- C4 amended: for a value not present in the stored list, the remove handler
leaves the stored record unchanged and never reaches the bulk upsert, but it
raises ValueError rather than returning silently; the genuine no-op path is an
empty (cancelled) selection, and within the UI a not-present value is never
offered, since the select menu is built from the stored prefixes themselves. -/
theorem C4_absent_removal_unchanged_but_raises (stored : List String)
    (v : String) (h : v ∉ stored) :
    remove_prefix_handler stored (some v) = .raised .valueError ∧
    storedAfterRemove stored (remove_prefix_handler stored (some v))
      = stored ∧
    removeWritesStorage (remove_prefix_handler stored (some v)) = false ∧
    remove_prefix_handler stored none = .cancelled := by
  simp [remove_prefix_handler, list_remove, h, storedAfterRemove,
    removeWritesStorage]

/-- C4 witness: instantiated with the one-element stored list containing "!"
and the absent value "a". -/
theorem C4_amended_witness :
    remove_prefix_handler ["!"] (some "a") = .raised .valueError ∧
    storedAfterRemove ["!"] (remove_prefix_handler ["!"] (some "a"))
      = ["!"] ∧
    removeWritesStorage (remove_prefix_handler ["!"] (some "a")) = false ∧
    remove_prefix_handler ["!"] none = .cancelled :=
  C4_absent_removal_unchanged_but_raises ["!"] "a" (by decide)

/-- C5: the claim's invariant "stored prefixes length at most 5 at all times"
is violated: from a reachable 5-element stored list the add button is still
enabled (`update_components` disables it only above 5) and the add handler
produces and stores a 6-element list. -/
theorem C5_stored_length_reaches_six :
    update_components ["a", "b", "c", "d", "e"] = ⟨false, false⟩ ∧
    (storedAfterAdd ["a", "b", "c", "d", "e"]
      (add_prefix_handler ["a", "b", "c", "d", "e"] "!")).length = 6 := by
  decide

/-- C6: adding a value already present in the stored list is rejected — with
the duplicate notice, or with the over-limit notice when the list is already
over the cap — and in either case the bulk upsert is never reached and the
stored list is unmodified. The value is nonempty because the modal's text
input has `min_length=1`, so a submitted value has at least one character. -/
theorem C6_duplicate_add_rejected_without_write (stored : List String)
    (v : String) (hv : v ∈ stored) (hne : v ≠ "") :
    (add_prefix_handler stored v = .tooMany ∨
      add_prefix_handler stored v = .duplicate) ∧
    addWritesStorage (add_prefix_handler stored v) = false ∧
    storedAfterAdd stored (add_prefix_handler stored v) = stored := by
  unfold add_prefix_handler
  by_cases h5 : stored.length > 5 <;>
    simp [h5, hne, hv, addWritesStorage, storedAfterAdd]

/-- C6 witness: instantiated with the stored list containing "!" and the
duplicate value "!". -/
theorem C6_duplicate_witness :
    (add_prefix_handler ["!"] "!" = .tooMany ∨
      add_prefix_handler ["!"] "!" = .duplicate) ∧
    addWritesStorage (add_prefix_handler ["!"] "!") = false ∧
    storedAfterAdd ["!"] (add_prefix_handler ["!"] "!") = ["!"] :=
  C6_duplicate_add_rejected_without_write ["!"] "!" (by decide) (by decide)

/-- C7: for a guild with no previously stored configuration the backing reads
report not-found, and both configuration reads recover it locally into an
empty default — `get_prefixes` returns the empty list and the ConfigStore read
returns a record with the optional field unset — instead of surfacing the
error. -/
theorem C7_not_found_recovered_to_empty_default :
    get_prefixes (.error .notFound) = .ok [] ∧
    get_guild_bot_config (.error .notFound) = .ok ⟨none⟩ :=
  ⟨rfl, rfl⟩

end LightningConfig

namespace LightningConfig

/-- C8: the autorole render distinguishes exactly three states. A configured
id that resolves to a live role renders "Change autorole" with the remove
button enabled and the healthy description; an unconfigured record renders
"Add an autorole" with the remove button disabled and the not-set-up
description; a configured id that no longer resolves renders the distinct
configured-but-broken description, with "Change autorole" and the remove
button enabled. The three rendered descriptions are pairwise distinct. -/
theorem C8_autorole_three_render_states (roles : List Nat) (live dead : Nat)
    (hlive : live ∈ roles) (hdead : dead ∉ roles) :
    format_initial_message roles ⟨some live⟩
      = ⟨"Change autorole", false, .healthy live⟩ ∧
    format_initial_message roles ⟨none⟩
      = ⟨"Add an autorole", true, .unset⟩ ∧
    format_initial_message roles ⟨some dead⟩
      = ⟨"Change autorole", false, .broken⟩ ∧
    (format_initial_message roles ⟨some live⟩).desc
      ≠ (format_initial_message roles ⟨none⟩).desc ∧
    (format_initial_message roles ⟨some live⟩).desc
      ≠ (format_initial_message roles ⟨some dead⟩).desc ∧
    (format_initial_message roles ⟨none⟩).desc
      ≠ (format_initial_message roles ⟨some dead⟩).desc := by
  simp [format_initial_message, resolveAutorole, hlive, hdead]

/-- C8 witness: instantiated with the guild role list containing only role 1,
the live id 1 and the dangling id 2. -/
theorem C8_render_witness :
    format_initial_message [1] ⟨some 1⟩
      = ⟨"Change autorole", false, .healthy 1⟩ ∧
    format_initial_message [1] ⟨none⟩
      = ⟨"Add an autorole", true, .unset⟩ ∧
    format_initial_message [1] ⟨some 2⟩
      = ⟨"Change autorole", false, .broken⟩ ∧
    (format_initial_message [1] ⟨some 1⟩).desc
      ≠ (format_initial_message [1] ⟨none⟩).desc ∧
    (format_initial_message [1] ⟨some 1⟩).desc
      ≠ (format_initial_message [1] ⟨some 2⟩).desc ∧
    (format_initial_message [1] ⟨none⟩).desc
      ≠ (format_initial_message [1] ⟨some 2⟩).desc :=
  C8_autorole_three_render_states [1] 1 2 (by decide) (by decide)

/-- C9: a sub-flow that resolves with cancellation causes no mutation. The
add-autorole handler with a cancelled role prompt returns the state unchanged
and raises nothing; the add-prefix handler with an empty modal value never
reaches the bulk upsert and leaves the stored list unchanged; the
remove-prefix handler with an empty selection returns cancelled, never reaches
the bulk upsert, and leaves the stored list unchanged. -/
theorem C9_cancellation_causes_no_mutation (s : ConfigState) (w : Bool)
    (p q : List String) :
    add_autorole_button s none w = ⟨s, none⟩ ∧
    addWritesStorage (add_prefix_handler p "") = false ∧
    storedAfterAdd p (add_prefix_handler p "") = p ∧
    remove_prefix_handler q none = .cancelled ∧
    removeWritesStorage (remove_prefix_handler q none) = false ∧
    storedAfterRemove q (remove_prefix_handler q none) = q := by
  refine ⟨rfl, ?_, ?_, rfl, rfl, rfl⟩ <;>
    (unfold add_prefix_handler;
     by_cases h5 : p.length > 5 <;>
       simp [h5, addWritesStorage, storedAfterAdd])

/-- C10: a value the modal accepts has between 1 and 50 characters
(`min_length=1, max_length=50`), and whenever the add handler stores a new
list, every element of it is either a previously stored prefix or such an
accepted value, so every prefix added through this UI satisfies the length
bound. -/
theorem C10_added_prefixes_within_length_bound (stored : List String)
    (v : String) (l : List String) (hacc : modalAccepts v)
    (h : add_prefix_handler stored v = .upserted l) :
    (1 ≤ v.length ∧ v.length ≤ 50) ∧
    ∀ x ∈ l, x ∈ stored ∨ (1 ≤ x.length ∧ x.length ≤ 50) := by
  refine ⟨hacc, ?_⟩
  unfold add_prefix_handler at h
  by_cases h5 : stored.length > 5
  · simp [h5] at h
  · by_cases he : v = ""
    · simp [h5, he] at h
    · by_cases hm : v ∈ stored
      · simp [h5, he, hm] at h
      · simp [h5, he, hm] at h
        subst h
        intro x hx
        rcases List.mem_append.mp hx with hx | hx
        · exact Or.inl hx
        · have hxv : x = v := by simpa using hx
          subst hxv
          exact Or.inr hacc

/-- C10 witness: instantiated with the empty stored list and the accepted
one-character value "!". -/
theorem C10_length_bound_witness :
    ((1 : Nat) ≤ ("!" : String).length ∧ ("!" : String).length ≤ 50) ∧
    ∀ x ∈ (["!"] : List String), x ∈ ([] : List String) ∨
      (1 ≤ x.length ∧ x.length ≤ 50) :=
  C10_added_prefixes_within_length_bound [] "!" ["!"] (by decide) (by decide)

end LightningConfig
